import Mathlib

/-!
Shallow embedding of hn_notifier.py (Hacker News to Telegram notifier).

Pure string processing, configuration loading, the SQLite-backed state
store, and the reconciliation loop are translated into executable Lean
definitions.  Network calls (the HN API and the Telegram bot API) are
modelled by an oracle `World`; an outbound call either yields a parsed
value or raises (modelled as `Except.error ()`, standing for the
RuntimeError that `_get_json` and `send_notification` raise once the
bounded retry loop is exhausted).  Exceptions propagate to the caller
exactly as in the Python code.
-/

/-! ## Python string primitives -/

/-- Whitespace characters removed by Python `str.strip` / `str.rstrip`
(ASCII subset actually occurring in this program's data). -/
def isPySpace (c : Char) : Bool :=
  c == ' ' || c == Char.ofNat 9 || c == Char.ofNat 10 || c == Char.ofNat 13
    || c == Char.ofNat 11 || c == Char.ofNat 12

/-- Python `str.rstrip()` on a character list. -/
def pyRstripL (l : List Char) : List Char :=
  (l.reverse.dropWhile isPySpace).reverse

/-- Python `str.strip()` on a character list. -/
def pyStripL (l : List Char) : List Char :=
  pyRstripL (l.dropWhile isPySpace)

/-- Python `str.strip()` on a string. -/
def pyStrip (s : String) : String :=
  ⟨pyStripL s.data⟩

/-- Core of Python `str.replace(pat, repl)`: leftmost, non-overlapping
replacement of every occurrence of `pat` by `repl`.  The `fuel`
argument (instantiated with the input length, which bounds the number
of steps since every step consumes at least one character) makes the
recursion structural, so concrete calls reduce inside the kernel. -/
def replaceSubAux (pat repl : List Char) : Nat → List Char → List Char
  | _, [] => []
  | 0, l => l
  | fuel + 1, c :: rest =>
    if pat ≠ [] ∧ (c :: rest).take pat.length = pat then
      repl ++ replaceSubAux pat repl fuel (rest.drop (pat.length - 1))
    else
      c :: replaceSubAux pat repl fuel rest

/-- Python `str.replace(pat, repl)` on a character list. -/
def replaceSub (pat repl : List Char) (l : List Char) : List Char :=
  replaceSubAux pat repl l.length l

/-! ## strip_html_tags

The Python code removes every match of the regex `<[^>]+>` (a literal
`<`, one or more characters other than `>`, then `>`), scanning left to
right, and then decodes five HTML entities in a fixed order
(src/hn_notifier.py lines 256-267).  The regex removal is embedded as a
two-state scanner: outside a candidate tag, characters pass through; on
`<` we buffer until the next `>`.  A buffer longer than just `<` means
the regex matched and the whole span is dropped; a bare `<>` has no
match (the class needs one or more characters) and is emitted verbatim,
exactly as `re.sub` behaves. -/

/-- The tag-removal scanner.  `buf = []` means we are outside a
candidate tag; otherwise `buf` holds the buffered characters of an open
candidate tag in reverse order, starting with its `<`.  On `>` a buffer
longer than just `<` is a regex match and is dropped; a bare `<>` is
emitted verbatim.  Unclosed buffers flush at the end of input.  `fuel`
(instantiated with the input length, one character per step) makes the
recursion structural so that concrete calls reduce inside the kernel. -/
def scanAux : Nat → List Char → List Char → List Char
  | _, buf, [] => buf.reverse
  | 0, buf, l => buf.reverse ++ l
  | fuel + 1, buf, c :: rest =>
    if buf = [] then
      if c == '<' then scanAux fuel ['<'] rest
      else c :: scanAux fuel [] rest
    else
      if c == '>' then
        if 2 ≤ buf.length then scanAux fuel [] rest
        else buf.reverse ++ '>' :: scanAux fuel [] rest
      else scanAux fuel (c :: buf) rest

/-- Removal of every match of `<[^>]+>`, scanning left to right. -/
def scanText (l : List Char) : List Char :=
  scanAux l.length [] l

def entQuot : List Char := "&quot;".data
def entApos : List Char := "&#x27;".data
def entAmp : List Char := "&amp;".data
def entLt : List Char := "&lt;".data
def entGt : List Char := "&gt;".data

/-- The five sequential `.replace` calls of `strip_html_tags`. -/
def decodeEntities (l : List Char) : List Char :=
  replaceSub entGt ['>']
    (replaceSub entLt ['<']
      (replaceSub entAmp ['&']
        (replaceSub entApos [Char.ofNat 39]
          (replaceSub entQuot [Char.ofNat 34] l))))

/-- `strip_html_tags`: drop `<...>` tags, then decode the fixed entity
set, in the same order as the Python chain of `.replace` calls. -/
def strip_html_tags (text : String) : String :=
  ⟨decodeEntities (scanText text.data)⟩

/-! ## HN items and message formatting -/

/-- Parsed item payload, the boundary form of the dict returned by
`HNClient.fetch_item`.  `author` is the `by` field, `text` the `text`
field (`none` models a missing field), `kids` the integer entries of the
`kids` list (missing or malformed lists parse to `[]`). -/
structure HNItem where
  author : Option String
  text : Option String
  kids : List Nat
deriving DecidableEq, Repr

/-- Python `a or b` for an optional string `a`: `None` and the empty
string are falsy and select the default. -/
def pyOr (v : Option String) (default : String) : String :=
  match v with
  | none => default
  | some s => if s = "" then default else s

def COMMENT_PREVIEW_LIMIT : Nat := 300

/-- The permalink `HN_ITEM_LINK.format(item_id=comment_id)`. -/
def hnItemLink (item_id : Nat) : String :=
  "https://news.ycombinator.com/item?id=" ++ toString item_id

/-- `format_notification`: strip markup, trim, truncate over-budget text
to `COMMENT_PREVIEW_LIMIT - 3` characters with trailing whitespace of
the kept prefix removed (Python `clean_text[:297].rstrip()`) plus an
ellipsis, and append the permalink. -/
def format_notification (comment_id : Nat) (item : HNItem) : String :=
  let author := pyOr item.author ("unknown")
  let text := pyOr item.text ("(no text)")
  let cleanText := pyStripL (strip_html_tags text).data
  let cleanText :=
    if COMMENT_PREVIEW_LIMIT < cleanText.length then
      pyRstripL (cleanText.take (COMMENT_PREVIEW_LIMIT - 3)) ++ "...".data
    else cleanText
  "New HN reply/comment by " ++ author ++ ":\n\n" ++ (⟨cleanText⟩ : String)
    ++ "\n\n" ++ hnItemLink comment_id

/-- `extract_kids`: the set of integer child IDs of a fetched item; a
falsy item (null JSON, a non-dict payload or an empty dict) contributes
no kids. -/
def extract_kids (item : Option HNItem) : Finset Nat :=
  match item with
  | none => ∅
  | some it => it.kids.toFinset

/-! ## Configuration loading -/

def DEFAULT_POLL_INTERVAL_MINUTES : Nat := 5

/-- The environment as `load_settings` reads it: `none` models an unset
variable (`os.getenv` returning its default). -/
structure EnvVars where
  hn_username : Option String
  telegram_bot_token : Option String
  telegram_chat_id : Option String
  poll_interval_minutes : Option String
deriving DecidableEq, Repr

structure Settings where
  hn_username : String
  telegram_bot_token : String
  telegram_chat_id : String
  poll_interval_minutes : Int
deriving DecidableEq, Repr

/-- Digits of a Python integer literal body (one or more decimal
digits). -/
def parseDigits (l : List Char) : Option Nat :=
  if l ≠ [] ∧ l.all Char.isDigit then
    some (l.foldl (fun a c => 10 * a + (c.toNat - 48)) 0)
  else none

/-- Python `int(s)` on an already-stripped string: an optional single
sign followed by decimal digits (digit-group underscores are not used by
this program's inputs and are not modelled). -/
def parsePyInt (s : String) : Option Int :=
  match s.data with
  | [] => none
  | c :: rest =>
    if c == '-' then (parseDigits rest).map (fun n => -(n : Int))
    else if c == '+' then (parseDigits rest).map (fun n => (n : Int))
    else (parseDigits (c :: rest)).map (fun n => (n : Int))

/-- `load_settings`: read and strip the four environment variables,
fail on missing required values, fail on a non-integer interval, and
clamp the interval to at least 1 (`max(1, int(interval_raw))`). -/
def load_settings (env : EnvVars) : Except String Settings :=
  let hn_username := pyStrip (env.hn_username.getD (""))
  let telegram_bot_token := pyStrip (env.telegram_bot_token.getD (""))
  let telegram_chat_id := pyStrip (env.telegram_chat_id.getD (""))
  let interval_raw :=
    pyStrip (env.poll_interval_minutes.getD (toString DEFAULT_POLL_INTERVAL_MINUTES))
  let missing : List String :=
    (if hn_username = "" then [("HN_USERNAME" : String)] else [])
      ++ (if telegram_bot_token = "" then [("TELEGRAM_BOT_TOKEN" : String)] else [])
      ++ (if telegram_chat_id = "" then [("TELEGRAM_CHAT_ID" : String)] else [])
  if missing ≠ [] then
    .error ("Missing required environment variables: " ++ String.intercalate (", ") missing)
  else
    match parsePyInt interval_raw with
    | none => .error ("POLL_INTERVAL_MINUTES must be an integer")
    | some n => .ok ⟨hn_username, telegram_bot_token, telegram_chat_id, max 1 n⟩

/-! ## The dedup state store

`StateStore` is the SQLite database: table `monitored_items(item_id)`,
table `item_kids(item_id, kid_id)` with primary key on the pair and a
foreign key `item_id REFERENCES monitored_items ON DELETE CASCADE`
(enforced, since the connection sets `PRAGMA foreign_keys=ON`), table
`notified_kids(kid_id PRIMARY KEY, notified_at)` and table
`metadata(key PRIMARY KEY, value)`.  Tables with set semantics are
`Finset`s; `metadata` is an association list with unique keys maintained
by the upsert. -/

/-- Python `sorted(...)` / SQL `ORDER BY` on a multiset of IDs: the
ascending enumeration, implemented by structurally recursive insertion
sort so that concrete instances evaluate inside the kernel. -/
def sortedNats (s : Multiset Nat) : List Nat :=
  Quot.liftOn s (fun l => List.insertionSort (· ≤ ·) l) fun _ _ h =>
    List.eq_of_perm_of_sorted
      ((List.perm_insertionSort _ _).trans (h.trans (List.perm_insertionSort _ _).symm))
      (List.sorted_insertionSort _ _) (List.sorted_insertionSort _ _)

/-- Ascending list of the elements of a finite set of IDs. -/
def sortedIds (X : Finset Nat) : List Nat :=
  sortedNats X.val

structure StateStore where
  monitored_items : Finset Nat
  item_kids : Finset (Nat × Nat)
  notified_kids : Finset (Nat × Nat)
  metadata : List (String × String)
deriving DecidableEq

/-- `reset_state`: `DELETE FROM` every table. -/
def StateStore.reset_state (_s : StateStore) : StateStore :=
  ⟨∅, ∅, ∅, []⟩

/-- `add_monitored_items`: `INSERT OR IGNORE` each ID (early return on an
empty batch). -/
def StateStore.add_monitored_items (s : StateStore) (item_ids : List Nat) : StateStore :=
  if item_ids = [] then s
  else { s with monitored_items := s.monitored_items ∪ item_ids.toFinset }

/-- `replace_monitored_items`: `DELETE FROM monitored_items` then
re-insert.  Because `foreign_keys=ON` and `item_kids` declares
`ON DELETE CASCADE`, the delete also removes every `item_kids` row. -/
def StateStore.replace_monitored_items (s : StateStore) (item_ids : List Nat) : StateStore :=
  { s with monitored_items := item_ids.toFinset, item_kids := ∅ }

/-- `remove_monitored_items`: explicitly delete the `item_kids` rows of
each removed item, then the items themselves (early return on an empty
batch). -/
def StateStore.remove_monitored_items (s : StateStore) (item_ids : List Nat) : StateStore :=
  if item_ids = [] then s
  else
    { s with
      item_kids := s.item_kids.filter (fun p => ¬ p.1 ∈ item_ids)
      monitored_items := s.monitored_items \ item_ids.toFinset }

/-- `get_monitored_items`: `SELECT item_id ... ORDER BY item_id`. -/
def StateStore.get_monitored_items (s : StateStore) : List Nat :=
  sortedIds s.monitored_items

/-- `get_known_kids`: the kid IDs recorded under one item. -/
def StateStore.get_known_kids (s : StateStore) (item_id : Nat) : Finset Nat :=
  (s.item_kids.filter (fun p => p.1 = item_id)).image Prod.snd

/-- `add_kids`: `INSERT OR IGNORE` each `(item_id, kid_id)` pair (early
return on an empty batch).  The callers below always pass a monitored
`item_id`, so the foreign-key constraint is satisfied. -/
def StateStore.add_kids (s : StateStore) (item_id : Nat) (kid_ids : Finset Nat) : StateStore :=
  if kid_ids = ∅ then s
  else { s with item_kids := s.item_kids ∪ kid_ids.image (fun k => (item_id, k)) }

/-- `is_kid_notified`: membership in `notified_kids`. -/
def StateStore.is_kid_notified (s : StateStore) (kid_id : Nat) : Bool :=
  decide (kid_id ∈ s.notified_kids.image Prod.fst)

/-- `mark_kid_notified`: `INSERT OR IGNORE` of `(kid_id, now)`; the
primary key on `kid_id` makes a second insert a no-op. -/
def StateStore.mark_kid_notified (s : StateStore) (kid_id now : Nat) : StateStore :=
  if s.is_kid_notified kid_id then s
  else { s with notified_kids := insert (kid_id, now) s.notified_kids }

/-- `get_metadata`: lookup by key. -/
def StateStore.get_metadata (s : StateStore) (key : String) : Option String :=
  (s.metadata.find? (fun p => p.1 == key)).map Prod.snd

/-- `set_metadata`: upsert (`INSERT ... ON CONFLICT(key) DO UPDATE`). -/
def StateStore.set_metadata (s : StateStore) (key value : String) : StateStore :=
  if (s.metadata.find? (fun p => p.1 == key)).isSome then
    { s with metadata := s.metadata.map (fun p => if p.1 == key then (key, value) else p) }
  else
    { s with metadata := s.metadata ++ [(key, value)] }

/-- The store after `reset_state` (and the state of a fresh database). -/
def emptyStore : StateStore := ⟨∅, ∅, ∅, []⟩

/-! ## The outside world and effect traces

`World` fixes the observable behaviour of the two remote APIs for one
call pattern: `userSubmitted` is the (already parsed and int-filtered)
result of `HNClient.fetch_user_submitted_ids` for the configured user,
`fetchItem` the parsed result of `HNClient.fetch_item`, and `sendOk`
tells whether `TelegramClient.send_notification` of a given message
ultimately succeeds (`false` means the bounded retry loop exhausts and
the call raises).  `Except.error ()` on a fetch is the RuntimeError
raised after `MAX_RETRIES` failed attempts. -/

structure World where
  userSubmitted : Except Unit (List Nat)
  fetchItem : Nat → Except Unit (Option HNItem)
  sendOk : String → Bool

/-- Trace of the observable outbound activity of one operation:
`fetches` the item IDs fetched (in call order), `sends` the messages
passed to `TelegramClient.send_notification` (attempted dispatches, in
call order), `marked` the kid IDs passed to `mark_kid_notified`. -/
structure Effects where
  fetches : List Nat
  sends : List String
  marked : List Nat
deriving DecidableEq

def Effects.empty : Effects := ⟨[], [], []⟩

def Effects.append (a b : Effects) : Effects :=
  ⟨a.fetches ++ b.fetches, a.sends ++ b.sends, a.marked ++ b.marked⟩

deriving instance DecidableEq for Except

/-- Result of one (possibly raising) stateful operation: the store it
leaves behind, its effect trace, and either its return value or the
exception that escaped it. -/
structure StepResult (α : Type) where
  store : StateStore
  eff : Effects
  out : Except Unit α
deriving DecidableEq

/-- `send_comment_notification` (the notify-and-record guard): return
`False` without any call when the kid is already notified; otherwise
fetch the comment (a raising fetch propagates), return `False` when the
payload is falsy, otherwise format, dispatch (a failing dispatch raises
out of the operation before anything is recorded), and only then
`mark_kid_notified`. -/
def send_comment_notification (w : World) (now : Nat) (kid_id : Nat)
    (store : StateStore) : StepResult Bool :=
  if store.is_kid_notified kid_id then
    ⟨store, Effects.empty, .ok false⟩
  else
    match w.fetchItem kid_id with
    | .error e => ⟨store, ⟨[kid_id], [], []⟩, .error e⟩
    | .ok none => ⟨store, ⟨[kid_id], [], []⟩, .ok false⟩
    | .ok (some comment_data) =>
      let message := format_notification kid_id comment_data
      if w.sendOk message then
        ⟨store.mark_kid_notified kid_id now, ⟨[kid_id], [message], [kid_id]⟩, .ok true⟩
      else
        ⟨store, ⟨[kid_id], [message], []⟩, .error ()⟩

/-- Sequential `send_comment_notification` over a list of kid IDs, as in
the `for kid_id in ...` loops; an escaping exception aborts the rest of
the loop. -/
def notify_kids (w : World) (now : Nat) (kids : List Nat)
    (store : StateStore) : StepResult Unit :=
  match kids with
  | [] => ⟨store, Effects.empty, .ok ()⟩
  | k :: rest =>
    let r := send_comment_notification w now k store
    match r.out with
    | .error e => ⟨r.store, r.eff, .error e⟩
    | .ok _ =>
      let r2 := notify_kids w now rest r.store
      ⟨r2.store, r.eff.append r2.eff, r2.out⟩

/-- The per-item loop of `bootstrap_initial_state`: fetch each submitted
item and record its current children as known, never notifying. -/
def bootstrap_items (w : World) (items : List Nat)
    (store : StateStore) : StepResult Unit :=
  match items with
  | [] => ⟨store, Effects.empty, .ok ()⟩
  | i :: rest =>
    match w.fetchItem i with
    | .error e => ⟨store, ⟨[i], [], []⟩, .error e⟩
    | .ok item =>
      let r := bootstrap_items w rest (store.add_kids i (extract_kids item))
      ⟨r.store, (Effects.append ⟨[i], [], []⟩ r.eff), r.out⟩

/-- `bootstrap_initial_state`: store the submitted list as the monitored
set, record every current child of every submitted item as known, then
record the `hn_username` and `initialized_at` metadata. -/
def bootstrap_initial_state (w : World) (username : String) (now : Nat)
    (store : StateStore) : StepResult Unit :=
  match w.userSubmitted with
  | .error e => ⟨store, Effects.empty, .error e⟩
  | .ok submitted_ids =>
    let r := bootstrap_items w submitted_ids (store.replace_monitored_items submitted_ids)
    match r.out with
    | .error e => ⟨r.store, r.eff, .error e⟩
    | .ok _ =>
      ⟨(r.store.set_metadata ("hn_username") username).set_metadata
          ("initialized_at") (toString now),
        r.eff, .ok ()⟩

/-- `ensure_state_initialized`: bootstrap a fresh store, reset and
re-bootstrap on a username mismatch, otherwise leave the store alone. -/
def ensure_state_initialized (w : World) (username : String) (now : Nat)
    (store : StateStore) : StepResult Unit :=
  match store.get_metadata ("hn_username") with
  | none => bootstrap_initial_state w username now store
  | some stored_username =>
    if stored_username ≠ username then
      bootstrap_initial_state w username now (store.reset_state)
    else
      ⟨store, Effects.empty, .ok ()⟩

/-- The per-new-item loop of `refresh_monitored_items`: fetch each newly
discovered item, record its children as known, then attempt
notify-and-record for each child in ascending order. -/
def refresh_new_items (w : World) (now : Nat) (items : List Nat)
    (store : StateStore) : StepResult Unit :=
  match items with
  | [] => ⟨store, Effects.empty, .ok ()⟩
  | i :: rest =>
    match w.fetchItem i with
    | .error e => ⟨store, ⟨[i], [], []⟩, .error e⟩
    | .ok item =>
      let kids := extract_kids item
      if kids = ∅ then
        let r := refresh_new_items w now rest store
        ⟨r.store, (Effects.append ⟨[i], [], []⟩ r.eff), r.out⟩
      else
        let r1 := notify_kids w now (sortedIds kids) (store.add_kids i kids)
        match r1.out with
        | .error e => ⟨r1.store, (Effects.append ⟨[i], [], []⟩ r1.eff), .error e⟩
        | .ok _ =>
          let r2 := refresh_new_items w now rest r1.store
          ⟨r2.store, (Effects.append ⟨[i], [], []⟩ (r1.eff.append r2.eff)), r2.out⟩

/-- `refresh_monitored_items`: fetch the latest submitted list, remove
the stale monitored items (with their known kids), add the new ones, and
treat children already present on a newly seen item as notify
candidates. -/
def refresh_monitored_items (w : World) (now : Nat)
    (store : StateStore) : StepResult Unit :=
  match w.userSubmitted with
  | .error e => ⟨store, Effects.empty, .error e⟩
  | .ok latest_submitted =>
    let latest_set := latest_submitted.toFinset
    let current_set := (store.get_monitored_items).toFinset
    let new_items := sortedIds (latest_set \ current_set)
    let removed_items := sortedIds (current_set \ latest_set)
    let store :=
      if removed_items ≠ [] then store.remove_monitored_items removed_items else store
    if new_items = [] then ⟨store, Effects.empty, .ok ()⟩
    else
      refresh_new_items w now new_items (store.add_monitored_items new_items)

/-- The body of the `poll_once` loop for one monitored item: fetch its
current children, diff against the known ones, attempt notify-and-record
for each new kid in ascending order, then record the new kids as
known. -/
def poll_item (w : World) (now : Nat) (item_id : Nat)
    (store : StateStore) : StepResult Unit :=
  match w.fetchItem item_id with
  | .error e => ⟨store, ⟨[item_id], [], []⟩, .error e⟩
  | .ok item_data =>
    let current_kids := extract_kids item_data
    let new_kids := sortedIds (current_kids \ store.get_known_kids item_id)
    if new_kids = [] then ⟨store, ⟨[item_id], [], []⟩, .ok ()⟩
    else
      let r := notify_kids w now new_kids store
      match r.out with
      | .error e => ⟨r.store, (Effects.append ⟨[item_id], [], []⟩ r.eff), .error e⟩
      | .ok _ =>
        ⟨r.store.add_kids item_id new_kids.toFinset,
          (Effects.append ⟨[item_id], [], []⟩ r.eff), .ok ()⟩

/-- Sequential `poll_item` over the monitored items. -/
def poll_items (w : World) (now : Nat) (items : List Nat)
    (store : StateStore) : StepResult Unit :=
  match items with
  | [] => ⟨store, Effects.empty, .ok ()⟩
  | i :: rest =>
    let r := poll_item w now i store
    match r.out with
    | .error e => ⟨r.store, r.eff, .error e⟩
    | .ok _ =>
      let r2 := poll_items w now rest r.store
      ⟨r2.store, r.eff.append r2.eff, r2.out⟩

/-- `poll_once`: diff the children of every monitored item, in ascending
item order. -/
def poll_once (w : World) (now : Nat) (store : StateStore) : StepResult Unit :=
  poll_items w now (store.get_monitored_items) store

/-- One iteration of the main loop: `refresh_monitored_items` then
`poll_once` (an exception aborts the rest of the cycle; the main loop
catches it, logs and sleeps). -/
def run_cycle (w : World) (now : Nat) (store : StateStore) : StepResult Unit :=
  let r := refresh_monitored_items w now store
  match r.out with
  | .error e => ⟨r.store, r.eff, .error e⟩
  | .ok _ =>
    let r2 := poll_once w now r.store
    ⟨r2.store, r.eff.append r2.eff, r2.out⟩

/-! ## Basic store lemmas -/

theorem reset_state_eq (s : StateStore) : s.reset_state = emptyStore := rfl

theorem remove_monitored_items_monitored (s : StateStore) (ids : List Nat) :
    (s.remove_monitored_items ids).monitored_items = s.monitored_items \ ids.toFinset := by
  unfold StateStore.remove_monitored_items
  by_cases h : ids = []
  · subst h; simp
  · simp [h]

theorem add_monitored_items_monitored (s : StateStore) (ids : List Nat) :
    (s.add_monitored_items ids).monitored_items = s.monitored_items ∪ ids.toFinset := by
  unfold StateStore.add_monitored_items
  by_cases h : ids = []
  · subst h; simp
  · simp [h]

theorem add_kids_monitored (s : StateStore) (i : Nat) (K : Finset Nat) :
    (s.add_kids i K).monitored_items = s.monitored_items := by
  unfold StateStore.add_kids
  by_cases h : K = ∅ <;> simp [h]

theorem mark_kid_notified_monitored (s : StateStore) (k now : Nat) :
    (s.mark_kid_notified k now).monitored_items = s.monitored_items := by
  unfold StateStore.mark_kid_notified
  by_cases h : s.is_kid_notified k <;> simp [h]

theorem mark_kid_notified_item_kids (s : StateStore) (k now : Nat) :
    (s.mark_kid_notified k now).item_kids = s.item_kids := by
  unfold StateStore.mark_kid_notified
  by_cases h : s.is_kid_notified k <;> simp [h]

theorem set_metadata_item_kids (s : StateStore) (k v : String) :
    (s.set_metadata k v).item_kids = s.item_kids := by
  unfold StateStore.set_metadata
  by_cases h : (s.metadata.find? (fun p => p.1 == k)).isSome <;> simp [h]

theorem add_kids_item_kids_mono (s : StateStore) (i : Nat) (K : Finset Nat) :
    s.item_kids ⊆ (s.add_kids i K).item_kids := by
  unfold StateStore.add_kids
  by_cases h : K = ∅ <;> simp [h, Finset.subset_union_left]

theorem known_kids_mono {s t : StateStore} (i : Nat)
    (h : s.item_kids ⊆ t.item_kids) :
    s.get_known_kids i ⊆ t.get_known_kids i := by
  intro k hk
  unfold StateStore.get_known_kids at *
  simp only [Finset.mem_image, Finset.mem_filter] at *
  obtain ⟨p, ⟨hp, hfst⟩, hsnd⟩ := hk
  exact ⟨p, ⟨h hp, hfst⟩, hsnd⟩

theorem known_add_kids (s : StateStore) (i : Nat) (K : Finset Nat) :
    (s.add_kids i K).get_known_kids i = s.get_known_kids i ∪ K := by
  unfold StateStore.add_kids StateStore.get_known_kids
  by_cases h : K = ∅
  · subst h; simp
  · rw [if_neg h, Finset.filter_union, Finset.image_union]
    congr 1
    ext k
    constructor
    · intro hk
      simp only [Finset.mem_image, Finset.mem_filter] at hk
      obtain ⟨p, ⟨hp, hfst⟩, hsnd⟩ := hk
      obtain ⟨a, ha, hae⟩ := hp
      have : a = k := by rw [← hsnd, ← hae]
      rw [← this]
      exact ha
    · intro hk
      exact Finset.mem_image.mpr
        ⟨(i, k), Finset.mem_filter.mpr ⟨Finset.mem_image.mpr ⟨k, hk, rfl⟩, rfl⟩, rfl⟩

theorem sortedNats_coe (s : Multiset Nat) : (sortedNats s : Multiset Nat) = s := by
  induction s using Quot.inductionOn with
  | h l => exact Quot.sound (List.perm_insertionSort _ l)

theorem mem_sortedIds {X : Finset Nat} {x : Nat} : x ∈ sortedIds X ↔ x ∈ X := by
  rw [← Multiset.mem_coe]
  unfold sortedIds
  rw [sortedNats_coe]
  exact Iff.rfl

theorem sortedIds_toFinset (X : Finset Nat) : (sortedIds X).toFinset = X := by
  ext x
  rw [List.mem_toFinset]
  exact mem_sortedIds

theorem sortedIds_eq_nil {X : Finset Nat} : sortedIds X = [] ↔ X = ∅ := by
  constructor
  · intro h
    have h2 := sortedIds_toFinset X
    rw [h] at h2
    simpa using h2.symm
  · intro h
    subst h
    rfl

theorem get_monitored_items_toFinset (s : StateStore) :
    (s.get_monitored_items).toFinset = s.monitored_items := by
  unfold StateStore.get_monitored_items
  exact sortedIds_toFinset _

/-! ## Claim C1 -/

/-- C1: when `is_kid_notified` already holds, `send_comment_notification`
is a complete no-op: it fetches nothing, dispatches nothing, marks
nothing, leaves the store unchanged, and returns `False` (already
done). -/
theorem claim_C1_already_notified_noop (w : World) (now kid_id : Nat) (s : StateStore)
    (h : s.is_kid_notified kid_id = true) :
    send_comment_notification w now kid_id s = ⟨s, Effects.empty, .ok false⟩ := by
  unfold send_comment_notification
  simp [h]

/-- C1 witness: a concrete store in which kid 7 is already notified. -/
theorem claim_C1_already_notified_noop_witness :
    send_comment_notification
        ⟨.ok [], fun _ => .ok none, fun _ => true⟩ 0 7 ⟨∅, ∅, {(7, 5)}, []⟩
      = ⟨⟨∅, ∅, {(7, 5)}, []⟩, Effects.empty, .ok false⟩ :=
  claim_C1_already_notified_noop _ 0 7 _ (by decide)

/-! ## Claim C7 -/

/-- C7: `add_kids` is idempotent — running it twice with the same
arguments leaves the same store as running it once — and inserting an
already-present pair is a no-op (the model is total, so no error is
possible; the already-present pair also satisfies the foreign-key
constraint, its parent row having existed when it was inserted). -/
theorem claim_C7_add_kids_idempotent (s : StateStore) (item_id : Nat) (kid_ids : Finset Nat) :
    (s.add_kids item_id kid_ids).add_kids item_id kid_ids = s.add_kids item_id kid_ids
      ∧ ∀ k, (item_id, k) ∈ s.item_kids → s.add_kids item_id {k} = s := by
  constructor
  · unfold StateStore.add_kids
    by_cases h : kid_ids = ∅
    · simp [h]
    · simp [h, Finset.union_assoc]
  · intro k hk
    unfold StateStore.add_kids
    have hne : ({k} : Finset Nat) ≠ ∅ := by simp
    simp only [hne, ite_false, if_neg, Finset.image_singleton]
    have hsub : ({(item_id, k)} : Finset (Nat × Nat)) ⊆ s.item_kids := by
      simpa using hk
    rw [Finset.union_eq_left.mpr hsub]

/-- C7 witness at a concrete store and batch. -/
theorem claim_C7_add_kids_idempotent_witness :
    ((⟨{1}, {(1, 2)}, ∅, []⟩ : StateStore).add_kids 1 {2, 3}).add_kids 1 {2, 3}
        = (⟨{1}, {(1, 2)}, ∅, []⟩ : StateStore).add_kids 1 {2, 3}
      ∧ (⟨{1}, {(1, 2)}, ∅, []⟩ : StateStore).add_kids 1 {2}
        = (⟨{1}, {(1, 2)}, ∅, []⟩ : StateStore) :=
  ⟨(claim_C7_add_kids_idempotent ⟨{1}, {(1, 2)}, ∅, []⟩ 1 {2, 3}).1,
    (claim_C7_add_kids_idempotent ⟨{1}, {(1, 2)}, ∅, []⟩ 1 {2, 3}).2 2 (by decide)⟩

/-! ## Claim C9 -/

/-- C9: `remove_monitored_items` cascade-deletes the known-kid rows of
every removed item: afterwards no `item_kids` row of a removed item
remains, rows of other items are untouched (in both directions), and the
foreign-key invariant — every `item_kids` row references a monitored
item — is preserved. -/
theorem claim_C9_remove_cascades (s : StateStore) (item_ids : List Nat) :
    (∀ p ∈ (s.remove_monitored_items item_ids).item_kids, ¬ p.1 ∈ item_ids)
      ∧ (∀ p ∈ s.item_kids, ¬ p.1 ∈ item_ids →
          p ∈ (s.remove_monitored_items item_ids).item_kids)
      ∧ (∀ p ∈ (s.remove_monitored_items item_ids).item_kids, p ∈ s.item_kids)
      ∧ ((∀ p ∈ s.item_kids, p.1 ∈ s.monitored_items) →
          ∀ p ∈ (s.remove_monitored_items item_ids).item_kids,
            p.1 ∈ (s.remove_monitored_items item_ids).monitored_items) := by
  unfold StateStore.remove_monitored_items
  by_cases h : item_ids = []
  · subst h
    simp
  · simp only [h, ite_false, if_neg, Finset.mem_filter]
    refine ⟨?_, ?_, ?_, ?_⟩
    · intro p hp
      exact hp.2
    · intro p hp hni
      exact ⟨hp, hni⟩
    · intro p hp
      exact hp.1
    · intro hinv p hp
      simp only [Finset.mem_sdiff]
      exact ⟨hinv p hp.1, by simpa using hp.2⟩

/-- C9 witness: removing item 1 deletes its kid rows and keeps item 2's
rows, preserving the invariant. -/
theorem claim_C9_remove_cascades_witness :
    (∀ p ∈ ((⟨{1, 2}, {(1, 10), (2, 20)}, ∅, []⟩ : StateStore).remove_monitored_items
        [1]).item_kids, ¬ p.1 ∈ [1])
      ∧ ((2, 20) ∈ ((⟨{1, 2}, {(1, 10), (2, 20)}, ∅, []⟩ : StateStore).remove_monitored_items
          [1]).item_kids) :=
  ⟨(claim_C9_remove_cascades ⟨{1, 2}, {(1, 10), (2, 20)}, ∅, []⟩ [1]).1,
    (claim_C9_remove_cascades ⟨{1, 2}, {(1, 10), (2, 20)}, ∅, []⟩ [1]).2.1 (2, 20)
      (by decide) (by decide)⟩

/-! ## Claim C6 -/

/-- C6: when the stored `hn_username` metadata is present and differs
from the configured username, initialization behaves exactly as
`reset_state` followed by a bootstrap: the resulting run is the
bootstrap run started from the completely empty store (no monitored
item, known-kid, notified-kid or metadata row survives into the new
baseline). -/
theorem claim_C6_identity_change_resets (w : World) (username : String) (now : Nat)
    (s : StateStore) (stored : String)
    (h1 : s.get_metadata ("hn_username") = some stored)
    (h2 : stored ≠ username) :
    ensure_state_initialized w username now s
        = bootstrap_initial_state w username now emptyStore
      ∧ s.reset_state = emptyStore
      ∧ emptyStore.monitored_items = ∅
      ∧ emptyStore.item_kids = ∅
      ∧ emptyStore.notified_kids = ∅
      ∧ emptyStore.metadata = [] := by
  refine ⟨?_, rfl, rfl, rfl, rfl, rfl⟩
  unfold ensure_state_initialized
  rw [h1]
  simp [h2, reset_state_eq]

/-- C6 witness: stored user alice, configured user bob. -/
theorem claim_C6_identity_change_resets_witness :
    ensure_state_initialized ⟨.ok [], fun _ => .ok none, fun _ => true⟩ ("bob") 0
        ⟨{1}, {(1, 10)}, {(10, 0)}, [(("hn_username"), ("alice"))]⟩
      = bootstrap_initial_state ⟨.ok [], fun _ => .ok none, fun _ => true⟩ ("bob") 0
          emptyStore :=
  (claim_C6_identity_change_resets ⟨.ok [], fun _ => .ok none, fun _ => true⟩ ("bob") 0
    ⟨{1}, {(1, 10)}, {(10, 0)}, [(("hn_username"), ("alice"))]⟩ ("alice")
    (by decide) (by decide)).1

/-! ## Claim C10 -/

/-- C10: `load_settings` accepts a non-positive integer
`POLL_INTERVAL_MINUTES` (such as 0 or -5) and clamps it to 1; only a
string that does not parse as an integer is rejected; every accepted
environment yields an interval of at least 1. -/
theorem claim_C10_interval_clamped :
    (∀ env st, load_settings env = .ok st → 1 ≤ st.poll_interval_minutes)
      ∧ load_settings ⟨some ("u"), some ("t"), some ("c"), some ("0")⟩
          = .ok ⟨"u", "t", "c", 1⟩
      ∧ load_settings ⟨some ("u"), some ("t"), some ("c"), some ("-5")⟩
          = .ok ⟨"u", "t", "c", 1⟩
      ∧ load_settings ⟨some ("u"), some ("t"), some ("c"), some ("abc")⟩
          = .error ("POLL_INTERVAL_MINUTES must be an integer") := by
  refine ⟨?_, by decide, by decide, by decide⟩
  intro env st h
  unfold load_settings at h
  dsimp only at h
  repeat' split at h
  any_goals exact Except.noConfusion h
  all_goals injection h with h
  all_goals rw [← h]
  all_goals exact le_max_left _ _

/-- C10 witness: the general bound applied to a concretely accepted
environment. -/
theorem claim_C10_interval_clamped_witness :
    1 ≤ (Settings.mk ("u") ("t") ("c") 1).poll_interval_minutes :=
  claim_C10_interval_clamped.1 ⟨some ("u"), some ("t"), some ("c"), some ("-5")⟩
    ⟨"u", "t", "c", 1⟩ (by decide)

/-! ## Claim C2 -/

/-- C2: in `send_comment_notification`, `mark_kid_notified` happens only
after a successful dispatch (a non-empty `marked` trace implies the
comment was fetched and `sendOk` held for the formatted message, and the
only store change is that mark); whenever nothing was marked the store
is untouched; and when the fetch raises or yields no data, the operation
does not report success and leaves the whole store — in particular the
notified set — unchanged, so the ID stays eligible for a retry. -/
theorem claim_C2_mark_only_after_send (w : World) (now kid_id : Nat) (s : StateStore) :
    ((send_comment_notification w now kid_id s).eff.marked ≠ [] →
        ∃ item, w.fetchItem kid_id = .ok (some item)
          ∧ w.sendOk (format_notification kid_id item) = true
          ∧ (send_comment_notification w now kid_id s).eff.sends
              = [format_notification kid_id item]
          ∧ (send_comment_notification w now kid_id s).store
              = s.mark_kid_notified kid_id now)
      ∧ ((send_comment_notification w now kid_id s).eff.marked = [] →
          (send_comment_notification w now kid_id s).store = s)
      ∧ (s.is_kid_notified kid_id = false →
          (w.fetchItem kid_id = .ok none ∨ w.fetchItem kid_id = .error ()) →
          (send_comment_notification w now kid_id s).store = s
            ∧ (send_comment_notification w now kid_id s).out ≠ .ok true
            ∧ (send_comment_notification w now kid_id s).store.is_kid_notified kid_id
                = false) := by
  unfold send_comment_notification
  rcases hn : s.is_kid_notified kid_id
  · rcases hf : w.fetchItem kid_id with e | it
    · cases e
      simp [Effects.empty, hn]
    · rcases it with _ | item
      · simp [Effects.empty, hn]
      · rcases hs : w.sendOk (format_notification kid_id item)
        · simp [Effects.empty, hn, hs]
        · refine ⟨fun _ => ⟨item, rfl, hs, by simp [hs], by simp [hs]⟩, ?_, ?_⟩
          · intro hm
            simp [hs] at hm
          · intro _ hor
            rcases hor with hor | hor <;> exact absurd hor (by simp)
  · simp [Effects.empty, hn]

/-- C2 witness: an unnotified kid whose fetch yields no data. -/
theorem claim_C2_mark_only_after_send_witness :
    (send_comment_notification ⟨.ok [], fun _ => .ok none, fun _ => true⟩ 0 5
          emptyStore).store = emptyStore
      ∧ (send_comment_notification ⟨.ok [], fun _ => .ok none, fun _ => true⟩ 0 5
          emptyStore).out ≠ .ok true
      ∧ (send_comment_notification ⟨.ok [], fun _ => .ok none, fun _ => true⟩ 0 5
          emptyStore).store.is_kid_notified 5 = false :=
  (claim_C2_mark_only_after_send ⟨.ok [], fun _ => .ok none, fun _ => true⟩ 0 5
    emptyStore).2.2 (by decide) (Or.inl rfl)

/-! ## Preservation lemmas for the loop bodies -/

theorem send_comment_notification_monitored (w : World) (now k : Nat) (s : StateStore) :
    (send_comment_notification w now k s).store.monitored_items = s.monitored_items := by
  unfold send_comment_notification
  rcases hn : s.is_kid_notified k
  · rcases w.fetchItem k with e | it
    · rfl
    · rcases it with _ | item
      · rfl
      · rcases hs : w.sendOk (format_notification k item)
        · simp [hs]
        · simp [hs, mark_kid_notified_monitored]
  · simp [hn]

theorem send_comment_notification_item_kids (w : World) (now k : Nat) (s : StateStore) :
    (send_comment_notification w now k s).store.item_kids = s.item_kids := by
  unfold send_comment_notification
  rcases hn : s.is_kid_notified k
  · rcases w.fetchItem k with e | it
    · rfl
    · rcases it with _ | item
      · rfl
      · rcases hs : w.sendOk (format_notification k item)
        · simp [hs]
        · simp [hs, mark_kid_notified_item_kids]
  · simp [hn]

theorem notify_kids_monitored (w : World) (now : Nat) (kids : List Nat) (s : StateStore) :
    (notify_kids w now kids s).store.monitored_items = s.monitored_items := by
  induction kids generalizing s with
  | nil => rfl
  | cons k rest ih =>
    unfold notify_kids
    rcases ho : (send_comment_notification w now k s).out with e | b
    · simpa [ho] using send_comment_notification_monitored w now k s
    · simp only [ho]
      rw [ih]
      exact send_comment_notification_monitored w now k s

theorem notify_kids_item_kids (w : World) (now : Nat) (kids : List Nat) (s : StateStore) :
    (notify_kids w now kids s).store.item_kids = s.item_kids := by
  induction kids generalizing s with
  | nil => rfl
  | cons k rest ih =>
    unfold notify_kids
    rcases ho : (send_comment_notification w now k s).out with e | b
    · simpa [ho] using send_comment_notification_item_kids w now k s
    · simp only [ho]
      rw [ih]
      exact send_comment_notification_item_kids w now k s

theorem refresh_new_items_monitored (w : World) (now : Nat) (items : List Nat)
    (s : StateStore) :
    (refresh_new_items w now items s).store.monitored_items = s.monitored_items := by
  induction items generalizing s with
  | nil => rfl
  | cons i rest ih =>
    unfold refresh_new_items
    rcases w.fetchItem i with e | item
    · rfl
    · by_cases hk : extract_kids item = ∅
      · simp only [hk, ite_true]
        exact ih s
      · simp only [hk, ite_false]
        rcases ho : (notify_kids w now (sortedIds (extract_kids item))
            ((s.add_kids i (extract_kids item)))).out with e | u
        · simp only [ho]
          rw [notify_kids_monitored, add_kids_monitored]
        · simp only [ho]
          rw [ih, notify_kids_monitored, add_kids_monitored]

/-! ## Claim C3 -/

/-- The monitored set after a successful submitted-list fetch equals the
latest submitted set. -/
theorem refresh_monitored_eq (w : World) (now : Nat) (s : StateStore) (latest : List Nat)
    (h : w.userSubmitted = .ok latest) :
    (refresh_monitored_items w now s).store.monitored_items = latest.toFinset := by
  unfold refresh_monitored_items
  rw [h]
  dsimp only
  simp only [get_monitored_items_toFinset]
  by_cases hnew : sortedIds (latest.toFinset \ s.monitored_items) = []
  · have hsub : latest.toFinset ⊆ s.monitored_items :=
      Finset.sdiff_eq_empty_iff_subset.mp (sortedIds_eq_nil.mp hnew)
    rw [if_pos hnew]
    by_cases hrem : sortedIds (s.monitored_items \ latest.toFinset) = []
    · have hsub2 : s.monitored_items ⊆ latest.toFinset :=
        Finset.sdiff_eq_empty_iff_subset.mp (sortedIds_eq_nil.mp hrem)
      rw [if_neg (not_not_intro hrem)]
      exact Finset.Subset.antisymm hsub2 hsub
    · rw [if_pos hrem]
      rw [remove_monitored_items_monitored, sortedIds_toFinset]
      rw [Finset.sdiff_sdiff_self_left]
      exact Finset.inter_eq_right.mpr hsub
  · rw [if_neg hnew]
    by_cases hrem : sortedIds (s.monitored_items \ latest.toFinset) = []
    · have hsub : s.monitored_items ⊆ latest.toFinset :=
        Finset.sdiff_eq_empty_iff_subset.mp (sortedIds_eq_nil.mp hrem)
      rw [if_neg (not_not_intro hrem)]
      rw [refresh_new_items_monitored, add_monitored_items_monitored, sortedIds_toFinset]
      exact Finset.union_sdiff_of_subset hsub
    · rw [if_pos hrem]
      rw [refresh_new_items_monitored, add_monitored_items_monitored,
        remove_monitored_items_monitored, sortedIds_toFinset, sortedIds_toFinset]
      rw [Finset.sdiff_sdiff_self_left, Finset.inter_comm]
      exact sup_inf_sdiff _ _

/-- C3: the refresh step syncs the monitored set to the latest submitted
set: after `refresh_monitored_items` (which applies
`remove_monitored_items` on `current - latest` before
`add_monitored_items` on `latest - current`) the stored monitored set
equals the latest submitted set; every removed ID is gone, every new ID
is present, and on the concrete instance monitored = 1,2,3 with latest =
2,3,4 the result is exactly 2,3,4 (1 removed, 4 added). -/
theorem claim_C3_refresh_set_difference (w : World) (now : Nat) (s : StateStore)
    (latest : List Nat) (h : w.userSubmitted = .ok latest) :
    (refresh_monitored_items w now s).store.monitored_items = latest.toFinset
      ∧ (∀ x ∈ s.monitored_items \ latest.toFinset,
          ¬ x ∈ (refresh_monitored_items w now s).store.monitored_items)
      ∧ (∀ x ∈ latest.toFinset \ s.monitored_items,
          x ∈ (refresh_monitored_items w now s).store.monitored_items)
      ∧ (refresh_monitored_items ⟨.ok [2, 3, 4], fun _ => .ok none, fun _ => true⟩ 0
            ⟨{1, 2, 3}, ∅, ∅, []⟩).store.monitored_items = {2, 3, 4} := by
  have hm := refresh_monitored_eq w now s latest h
  refine ⟨hm, ?_, ?_, by decide⟩
  · intro x hx
    rw [hm]
    exact (Finset.mem_sdiff.mp hx).2
  · intro x hx
    rw [hm]
    exact (Finset.mem_sdiff.mp hx).1

/-- C3 witness: the theorem applied to the concrete spec example. -/
theorem claim_C3_refresh_set_difference_witness :
    (refresh_monitored_items ⟨.ok [2, 3, 4], fun _ => .ok none, fun _ => true⟩ 0
        ⟨{1, 2, 3}, ∅, ∅, []⟩).store.monitored_items = [2, 3, 4].toFinset :=
  (claim_C3_refresh_set_difference ⟨.ok [2, 3, 4], fun _ => .ok none, fun _ => true⟩ 0
    ⟨{1, 2, 3}, ∅, ∅, []⟩ [2, 3, 4] rfl).1

/-! ## Effect-trace lemmas -/

theorem send_marked_cases (w : World) (now k : Nat) (s : StateStore) :
    (send_comment_notification w now k s).eff.marked = []
      ∨ (send_comment_notification w now k s).eff.marked = [k] := by
  unfold send_comment_notification
  rcases hn : s.is_kid_notified k
  · rcases w.fetchItem k with e | it
    · exact Or.inl rfl
    · rcases it with _ | item
      · exact Or.inl rfl
      · rcases hs : w.sendOk (format_notification k item)
        · simp [hs]
        · simp [hs]
  · simp [hn, Effects.empty]

theorem notify_kids_marked_mem (w : World) (now : Nat) (kids : List Nat) (s : StateStore) :
    ∀ x ∈ (notify_kids w now kids s).eff.marked, x ∈ kids := by
  induction kids generalizing s with
  | nil =>
    intro x hx
    simp [notify_kids, Effects.empty] at hx
  | cons k rest ih =>
    intro x hx
    unfold notify_kids at hx
    rcases ho : (send_comment_notification w now k s).out with e | b
    · simp only [ho] at hx
      rcases send_marked_cases w now k s with hm | hm
      · rw [hm] at hx
        exact absurd hx (List.not_mem_nil x)
      · rw [hm] at hx
        rcases List.mem_singleton.mp hx with rfl
        exact List.mem_cons_self _ _
    · simp only [ho, Effects.append] at hx
      rcases List.mem_append.mp hx with hx | hx
      · rcases send_marked_cases w now k s with hm | hm
        · rw [hm] at hx
          exact absurd hx (List.not_mem_nil x)
        · rw [hm] at hx
          rcases List.mem_singleton.mp hx with rfl
          exact List.mem_cons_self _ _
      · exact List.mem_cons_of_mem _ (ih _ x hx)

/-! ## Bootstrap lemmas -/

theorem bootstrap_items_no_sends (w : World) (items : List Nat) (s : StateStore) :
    (bootstrap_items w items s).eff.sends = []
      ∧ (bootstrap_items w items s).eff.marked = [] := by
  induction items generalizing s with
  | nil => exact ⟨rfl, rfl⟩
  | cons i rest ih =>
    unfold bootstrap_items
    rcases w.fetchItem i with e | item
    · exact ⟨rfl, rfl⟩
    · constructor
      · simpa [Effects.append] using (ih _).1
      · simpa [Effects.append] using (ih _).2

theorem bootstrap_no_sends (w : World) (username : String) (now : Nat) (s : StateStore) :
    (bootstrap_initial_state w username now s).eff.sends = []
      ∧ (bootstrap_initial_state w username now s).eff.marked = [] := by
  unfold bootstrap_initial_state
  rcases w.userSubmitted with e | subs
  · exact ⟨rfl, rfl⟩
  · rcases ho : (bootstrap_items w subs (s.replace_monitored_items subs)).out with e | u
    · simp only [ho]
      exact bootstrap_items_no_sends w subs _
    · simp only [ho]
      exact bootstrap_items_no_sends w subs _

theorem bootstrap_items_kids_mono (w : World) (items : List Nat) (s : StateStore) :
    s.item_kids ⊆ (bootstrap_items w items s).store.item_kids := by
  induction items generalizing s with
  | nil => exact Finset.Subset.refl _
  | cons i rest ih =>
    unfold bootstrap_items
    rcases w.fetchItem i with e | item
    · exact Finset.Subset.refl _
    · exact (add_kids_item_kids_mono s i (extract_kids item)).trans (ih _)

theorem known_kids_congr (s t : StateStore) (h : s.item_kids = t.item_kids) (i : Nat) :
    s.get_known_kids i = t.get_known_kids i := by
  unfold StateStore.get_known_kids
  rw [h]

theorem bootstrap_items_known (w : World) (items : List Nat) :
    ∀ s : StateStore, (bootstrap_items w items s).out = .ok () →
      ∀ i ∈ items, ∀ item, w.fetchItem i = .ok item →
        extract_kids item ⊆ (bootstrap_items w items s).store.get_known_kids i := by
  induction items with
  | nil =>
    intro s _ i hi
    exact absurd hi (List.not_mem_nil i)
  | cons j rest ih =>
    intro s hout i hi item hitem
    unfold bootstrap_items at hout ⊢
    rcases hf : w.fetchItem j with e | itemj
    · rw [hf] at hout
      exact absurd hout (by simp)
    · rw [hf] at hout
      dsimp only at hout ⊢
      rcases List.mem_cons.mp hi with rfl | hir
      · rw [hf] at hitem
        injection hitem with hitem
        subst hitem
        refine Finset.Subset.trans ?_
          (known_kids_mono i (bootstrap_items_kids_mono w rest _))
        rw [known_add_kids]
        exact Finset.subset_union_right
      · exact ih _ hout i hir item hitem

theorem bootstrap_known (w : World) (username : String) (now : Nat) (s : StateStore)
    (subs : List Nat) (hsub : w.userSubmitted = .ok subs)
    (hout : (bootstrap_initial_state w username now s).out = .ok ())
    (i : Nat) (hi : i ∈ subs) (item : Option HNItem)
    (hitem : w.fetchItem i = .ok item) :
    extract_kids item
      ⊆ (bootstrap_initial_state w username now s).store.get_known_kids i := by
  unfold bootstrap_initial_state at hout ⊢
  rw [hsub] at hout ⊢
  dsimp only at hout ⊢
  rcases ho : (bootstrap_items w subs (s.replace_monitored_items subs)).out with e | u
  · rw [ho] at hout
    exact absurd hout (by simp)
  · dsimp only
    have he : (((bootstrap_items w subs (s.replace_monitored_items subs)).store.set_metadata
          ("hn_username") username).set_metadata ("initialized_at")
            (toString now)).get_known_kids i
        = (bootstrap_items w subs (s.replace_monitored_items subs)).store.get_known_kids i :=
      known_kids_congr _ _ (by rw [set_metadata_item_kids, set_metadata_item_kids]) i
    rw [he]
    exact bootstrap_items_known w subs (s.replace_monitored_items subs) ho i hi item hitem

/-! ## Poll-phase exclusion of known kids -/

theorem poll_item_excludes_known (w : World) (now item_id : Nat) (s : StateStore)
    (k : Nat) (hk : k ∈ s.get_known_kids item_id) :
    ¬ k ∈ (poll_item w now item_id s).eff.marked := by
  unfold poll_item
  rcases hf : w.fetchItem item_id with e | item_data
  · simp
  · dsimp only
    by_cases hnew :
        sortedIds (extract_kids item_data \ s.get_known_kids item_id) = []
    · rw [if_pos hnew]
      simp
    · rw [if_neg hnew]
      rcases ho : (notify_kids w now
          (sortedIds (extract_kids item_data \ s.get_known_kids item_id)) s).out with e | u
      · simp only [ho, Effects.append]
        intro hmem
        rcases List.mem_append.mp hmem with hmem | hmem
        · exact absurd hmem (List.not_mem_nil k)
        · have := notify_kids_marked_mem w now _ s k hmem
          rw [mem_sortedIds] at this
          exact (Finset.mem_sdiff.mp this).2 hk
      · simp only [ho, Effects.append]
        intro hmem
        rcases List.mem_append.mp hmem with hmem | hmem
        · exact absurd hmem (List.not_mem_nil k)
        · have := notify_kids_marked_mem w now _ s k hmem
          rw [mem_sortedIds] at this
          exact (Finset.mem_sdiff.mp this).2 hk

/-! ## Claim C4 -/

/-- Concrete scenario: user bob has submitted item 1, which already
carries child comment 10 at bootstrap time. -/
def exItemWithKid : HNItem := ⟨some ("dan"), some ("story"), [10]⟩

def exKidComment : HNItem := ⟨some ("carol"), some ("hi"), []⟩

def exWorldBoot : World :=
  ⟨.ok [1], fun i => if i = 1 then .ok (some exItemWithKid) else .ok none, fun _ => true⟩

/-- A later cycle in which item 1 has dropped off the submitted list. -/
def exWorldEmpty : World := ⟨.ok [], fun _ => .ok none, fun _ => true⟩

/-- A still later cycle in which item 1 is submitted again. -/
def exWorldBack : World :=
  ⟨.ok [1],
    fun i =>
      if i = 1 then .ok (some exItemWithKid)
      else if i = 10 then .ok (some exKidComment) else .ok none,
    fun _ => true⟩

def exBootStore : StateStore :=
  (bootstrap_initial_state exWorldBoot ("bob") 0 emptyStore).store

def exAfterRemoval : StateStore := (run_cycle exWorldEmpty 1 exBootStore).store

/-- C4 counterexample: comment 10 is present on submitted item 1 at
bootstrap time (and is recorded as known, with nothing dispatched or
marked during bootstrap), yet a notification IS sent for it in a later
polling cycle: after a cycle in which item 1 leaves the submitted list
(cascade-deleting its known kids) and a cycle in which it reappears, the
refresh step treats kid 10 as a fresh candidate, dispatches its message
and marks it notified. -/
theorem claim_C4_counterexample :
    (bootstrap_initial_state exWorldBoot ("bob") 0 emptyStore).out = .ok ()
      ∧ (10 ∈ exBootStore.get_known_kids 1)
      ∧ (bootstrap_initial_state exWorldBoot ("bob") 0 emptyStore).eff.sends = []
      ∧ (bootstrap_initial_state exWorldBoot ("bob") 0 emptyStore).eff.marked = []
      ∧ (run_cycle exWorldEmpty 1 exBootStore).out = .ok ()
      ∧ (run_cycle exWorldBack 2 exAfterRemoval).eff.marked = [10]
      ∧ (run_cycle exWorldBack 2 exAfterRemoval).eff.sends
          = [format_notification 10 exKidComment] := by
  exact ⟨by decide, by decide, by decide, by decide, by decide, by decide, by decide⟩

/-- C4 (amended): bootstrap itself dispatches no message and marks no
kid as notified; after a completed bootstrap every child present on a
fetched submitted item is recorded in that item's known-kids set; and
the per-item diff of the polling phase excludes known IDs from the
notify candidates (a known kid is never passed to notify-and-record by
`poll_item`).  The original "no notification is ever sent for that ID in
any later polling cycle" additionally requires that the item never
leaves the submitted list: if it drops out and reappears, the cascade
delete erases the known-kids baseline and the refresh step re-notifies
(see the counterexample). -/
theorem claim_C4_amended (w : World) (username : String) (now : Nat) (s : StateStore) :
    ((bootstrap_initial_state w username now s).eff.sends = []
        ∧ (bootstrap_initial_state w username now s).eff.marked = [])
      ∧ (∀ subs, w.userSubmitted = .ok subs →
          (bootstrap_initial_state w username now s).out = .ok () →
          ∀ i ∈ subs, ∀ item, w.fetchItem i = .ok item →
            extract_kids item
              ⊆ (bootstrap_initial_state w username now s).store.get_known_kids i)
      ∧ (∀ item_id k, k ∈ s.get_known_kids item_id →
          ¬ k ∈ (poll_item w now item_id s).eff.marked) := by
  refine ⟨bootstrap_no_sends w username now s, ?_, ?_⟩
  · intro subs hsub hout i hi item hitem
    exact bootstrap_known w username now s subs hsub hout i hi item hitem
  · intro item_id k hk
    exact poll_item_excludes_known w now item_id s k hk

/-- C4 witness: the bootstrap-records-as-known part applied to the
concrete bootstrap scenario. -/
theorem claim_C4_amended_witness :
    extract_kids (some exItemWithKid)
      ⊆ (bootstrap_initial_state exWorldBoot ("bob") 0 emptyStore).store.get_known_kids 1 :=
  (claim_C4_amended exWorldBoot ("bob") 0 emptyStore).2.1 [1] rfl (by decide) 1
    (by decide) (some exItemWithKid) (by decide)

/-! ## Claim C5 -/

def exStoreMonitored1 : StateStore := ⟨{1}, ∅, ∅, []⟩

/-- A world in which every Telegram dispatch fails (raises after the
retry bound). -/
def exWorldSendFail : World :=
  ⟨.ok [1],
    fun i =>
      if i = 1 then .ok (some exItemWithKid)
      else if i = 10 then .ok (some exKidComment) else .ok none,
    fun _ => false⟩

/-- C5 counterexample: item 1 is monitored with current child 10 and no
known kids; the notify-and-record attempt for kid 10 fails by raising
(the dispatch fails after its retries), `poll_once` aborts before
`add_kids`, and the known-kids set of item 1 is left empty — the full
current-children set is NOT persisted despite the claim's "regardless of
individual notification outcomes". -/
theorem claim_C5_counterexample :
    extract_kids (some exItemWithKid) = {10}
      ∧ (poll_once exWorldSendFail 0 exStoreMonitored1).out = .error ()
      ∧ (poll_once exWorldSendFail 0 exStoreMonitored1).store.get_known_kids 1 = ∅
      ∧ ¬ 10 ∈ (poll_once exWorldSendFail 0 exStoreMonitored1).store.get_known_kids 1 := by
  exact ⟨by decide, by decide, by decide, by decide⟩

/-- C5 (amended): for a monitored item whose fetch succeeds, if the
notify-and-record loop over its new kids (taken in ascending ID order)
completes without raising — individual `False` outcomes such as
already-notified or unfetchable comments included — then `poll_item`
returns normally and persists the kids via `add_kids`, after which the
item's known-kids set contains every current child.  When an attempt
raises (dispatch or fetch failure after retries), the update is skipped
(see the counterexample). -/
theorem claim_C5_amended (w : World) (now item_id : Nat) (s : StateStore)
    (item : Option HNItem) (hf : w.fetchItem item_id = .ok item)
    (hok : (notify_kids w now
        (sortedIds (extract_kids item \ s.get_known_kids item_id)) s).out = .ok ()) :
    (poll_item w now item_id s).out = .ok ()
      ∧ extract_kids item ⊆ (poll_item w now item_id s).store.get_known_kids item_id := by
  unfold poll_item
  rw [hf]
  dsimp only
  by_cases hnew : sortedIds (extract_kids item \ s.get_known_kids item_id) = []
  · rw [if_pos hnew]
    refine ⟨rfl, ?_⟩
    have hempty : extract_kids item \ s.get_known_kids item_id = ∅ :=
      sortedIds_eq_nil.mp hnew
    intro x hx
    by_cases hxk : x ∈ s.get_known_kids item_id
    · exact hxk
    · exact absurd (Finset.mem_sdiff.mpr ⟨hx, hxk⟩)
        (by rw [hempty]; exact Finset.not_mem_empty x)
  · rw [if_neg hnew]
    rw [hok]
    dsimp only
    refine ⟨rfl, ?_⟩
    intro x hx
    rw [known_add_kids, sortedIds_toFinset,
      known_kids_congr
        ((notify_kids w now
          (sortedIds (extract_kids item \ s.get_known_kids item_id)) s).store) s
        (notify_kids_item_kids w now
          (sortedIds (extract_kids item \ s.get_known_kids item_id)) s) item_id]
    by_cases hxk : x ∈ s.get_known_kids item_id
    · exact Finset.mem_union_left _ hxk
    · exact Finset.mem_union_right _ (Finset.mem_sdiff.mpr ⟨hx, hxk⟩)

/-- C5 witness: the amended theorem applied to a succeeding world. -/
theorem claim_C5_amended_witness :
    extract_kids (some exItemWithKid)
      ⊆ (poll_item exWorldBack 0 1 exStoreMonitored1).store.get_known_kids 1 :=
  (claim_C5_amended exWorldBack 0 1 exStoreMonitored1 (some exItemWithKid)
    (by decide) (by decide)).2

/-! ## Claim C8 -/

theorem pyRstripL_length_le (l : List Char) : (pyRstripL l).length ≤ l.length := by
  unfold pyRstripL
  rw [List.length_reverse]
  calc (l.reverse.dropWhile isPySpace).length
      ≤ l.reverse.length := (List.dropWhile_sublist isPySpace).length_le
    _ = l.length := List.length_reverse l

set_option maxRecDepth 10000

/-- A cleaned text of length 301 whose 297th character is a space. -/
def c8BoundaryText : String :=
  ⟨List.replicate 296 'a' ++ [' '] ++ List.replicate 4 'b'⟩

def c8BoundaryItem : HNItem := ⟨some ("alice"), some c8BoundaryText, []⟩

/-- C8 counterexample: for this over-budget input the preview is NOT the
cleaned text truncated to `COMMENT_PREVIEW_LIMIT - 3` characters plus an
ellipsis — the code additionally right-strips the kept prefix
(`clean_text[:297].rstrip()`), so the 296-character prefix plus ellipsis
is produced instead. -/
theorem claim_C8_counterexample :
    COMMENT_PREVIEW_LIMIT < (pyStripL (strip_html_tags c8BoundaryText).data).length
      ∧ format_notification 1 c8BoundaryItem
          ≠ "New HN reply/comment by alice:\n\n"
              ++ (⟨(pyStripL (strip_html_tags c8BoundaryText).data).take
                    (COMMENT_PREVIEW_LIMIT - 3)⟩ : String)
              ++ "..." ++ "\n\n" ++ hnItemLink 1
      ∧ format_notification 1 c8BoundaryItem
          = "New HN reply/comment by alice:\n\n"
              ++ (⟨List.replicate 296 'a'⟩ : String) ++ "..." ++ "\n\n" ++ hnItemLink 1 := by
  exact ⟨by decide, by decide, by decide⟩

/-- C8 (amended): formatting is a pure function of the author and text:
the spec example input produces output containing "Hello & welcome" with
the tag stripped and the ampersand entity decoded; for every input whose
cleaned (tag-stripped, entity-decoded, trimmed) text exceeds the
300-character preview limit, the message consists of the header, the
cleaned text truncated to the limit minus 3 characters WITH the trailing
whitespace of that prefix removed, an ellipsis, and the permalink (so
the pre-ellipsis preview is at most 297 characters, exactly 297 when no
boundary whitespace is cut, as for a 400-character run of `a`). -/
theorem claim_C8_formatting_amended (comment_id : Nat) (item : HNItem) :
    (∃ pre post,
        (format_notification 42
            ⟨some ("alice"), some ("<p>Hello &amp; welcome</p>"), []⟩).data
          = pre ++ ("Hello & welcome").data ++ post)
      ∧ (COMMENT_PREVIEW_LIMIT
            < (pyStripL (strip_html_tags (pyOr item.text ("(no text)"))).data).length →
          format_notification comment_id item
              = "New HN reply/comment by " ++ pyOr item.author ("unknown") ++ ":\n\n"
                  ++ (⟨pyRstripL ((pyStripL (strip_html_tags
                          (pyOr item.text ("(no text)"))).data).take
                        (COMMENT_PREVIEW_LIMIT - 3)) ++ "...".data⟩ : String)
                  ++ "\n\n" ++ hnItemLink comment_id
            ∧ (pyRstripL ((pyStripL (strip_html_tags
                    (pyOr item.text ("(no text)"))).data).take
                  (COMMENT_PREVIEW_LIMIT - 3))).length ≤ COMMENT_PREVIEW_LIMIT - 3)
      ∧ format_notification 1 ⟨some ("alice"), some (⟨List.replicate 400 'a'⟩ : String), []⟩
          = "New HN reply/comment by alice:\n\n"
              ++ (⟨List.replicate 297 'a'⟩ : String) ++ "..." ++ "\n\n" ++ hnItemLink 1 := by
  refine ⟨⟨("New HN reply/comment by alice:\n\n").data,
      ("\n\nhttps://news.ycombinator.com/item?id=42").data, by decide⟩, ?_, by decide⟩
  intro hlong
  constructor
  · unfold format_notification
    dsimp only
    rw [if_pos hlong]
  · calc (pyRstripL ((pyStripL (strip_html_tags
            (pyOr item.text ("(no text)"))).data).take (COMMENT_PREVIEW_LIMIT - 3))).length
        ≤ ((pyStripL (strip_html_tags (pyOr item.text ("(no text)"))).data).take
            (COMMENT_PREVIEW_LIMIT - 3)).length := pyRstripL_length_le _
      _ ≤ COMMENT_PREVIEW_LIMIT - 3 := by
          rw [List.length_take]
          exact min_le_left _ _

/-- C8 witness: the truncation equation instantiated at the 400-`a`
input. -/
theorem claim_C8_formatting_amended_witness :
    format_notification 1 ⟨some ("alice"), some (⟨List.replicate 400 'a'⟩ : String), []⟩
      = "New HN reply/comment by " ++ pyOr (some ("alice")) ("unknown") ++ ":\n\n"
          ++ (⟨pyRstripL ((pyStripL (strip_html_tags
                  (pyOr (some (⟨List.replicate 400 'a'⟩ : String)) ("(no text)"))).data).take
                (COMMENT_PREVIEW_LIMIT - 3)) ++ "...".data⟩ : String)
          ++ "\n\n" ++ hnItemLink 1 :=
  ((claim_C8_formatting_amended 1
    ⟨some ("alice"), some (⟨List.replicate 400 'a'⟩ : String), []⟩).2.1 (by decide)).1
